import Mathlib

/-!
Shallow embedding of `src/index-basic.js` from the runcloud-mcp repository:
an MCP (Model Context Protocol) server exposing the RunCloud REST API as
callable tools.  The embedding models the tool registry (the ListTools
handler), the dispatch switch (the CallTool handler), each per-tool request
mapper, the error-translation catch block, and the startup sequence that
builds the axios client from environment variables.

JavaScript runtime values are modelled by the inductive `Value` below;
machine floating point numbers are restricted to integers (every numeric
literal relevant to the program - ids, page numbers, status codes - is an
integer).  Property access on a missing key yields `vUndef`, mirroring
JavaScript `undefined`.
-/

namespace RunCloud

/-- JavaScript values as they occur in tool arguments and JSON payloads.
Numbers are modelled as integers; `vUndef` is JavaScript `undefined` and
`vNull` is JSON `null`. -/
inductive Value where
  | vUndef : Value
  | vNull : Value
  | vStr : String → Value
  | vNum : Int → Value
  | vBool : Bool → Value
  | vObj : List (String × Value) → Value
  | vArr : List Value → Value

/-- An argument object: an association list of field name to value,
mirroring a JavaScript object literal. -/
abbrev Args := List (String × Value)

/-- JavaScript property access `o[k]`: the first binding of `k`, or
`undefined` when the key is absent. -/
def getProp (args : Args) (k : String) : Value :=
  match args.find? (fun p => p.1 == k) with
  | some p => p.2
  | none => Value.vUndef

/-- JavaScript truthiness, as used by the `if (args.x)` guards in the list
and create handlers: `undefined`, `null`, the empty string, `0` and `false`
are falsy; every object and array is truthy. -/
def truthy : Value → Bool
  | Value.vUndef => false
  | Value.vNull => false
  | Value.vStr s => !(s == "")
  | Value.vNum n => !(n == 0)
  | Value.vBool b => b
  | Value.vObj _ => true
  | Value.vArr _ => true

mutual
/-- JavaScript string conversion as performed by template-literal
interpolation: `undefined` renders as the literal text undefined, objects
as the text [object Object], arrays as their elements joined by commas
with nested `undefined` and `null` rendered empty. -/
def jsString : Value → String
  | Value.vUndef => "undefined"
  | Value.vNull => "null"
  | Value.vStr s => s
  | Value.vNum n => toString n
  | Value.vBool b => cond b "true" "false"
  | Value.vObj _ => "[object Object]"
  | Value.vArr es => String.intercalate "," (jsStringList es)

/-- Element rendering for JavaScript array-to-string conversion. -/
def jsStringList : List Value → List String
  | [] => []
  | Value.vUndef :: rest => "" :: jsStringList rest
  | Value.vNull :: rest => "" :: jsStringList rest
  | v :: rest => jsString v :: jsStringList rest
end

/-- A run of `n` spaces, used by the pretty printer indentation. -/
def spaces (n : Nat) : String := String.mk (List.replicate n ' ')

/-- One hexadecimal digit. -/
def hexDigit (n : Nat) : Char :=
  if n < 10 then Char.ofNat (48 + n) else Char.ofNat (87 + n % 16)

/-- Four-digit hexadecimal rendering for JSON control-character escapes. -/
def hex4 (n : Nat) : String :=
  String.mk [hexDigit (n / 4096 % 16), hexDigit (n / 256 % 16),
             hexDigit (n / 16 % 16), hexDigit (n % 16)]

/-- JSON escaping of a single character, following JSON.stringify. -/
def escChar (c : Char) : String :=
  if c = '"' then "\\\""
  else if c = '\\' then "\\\\"
  else if c = '\n' then "\\n"
  else if c = '\r' then "\\r"
  else if c = '\t' then "\\t"
  else if c.toNat == 8 then "\\b"
  else if c.toNat == 12 then "\\f"
  else if c.toNat < 32 then "\\u" ++ hex4 c.toNat
  else String.mk [c]

/-- JSON string quoting, following JSON.stringify. -/
def quoteJson (s : String) : String :=
  "\"" ++ String.join (s.data.map escChar) ++ "\""

mutual
/-- The pretty printer `JSON.stringify(v, null, 2)` used by every handler
to render the remote response body.  The first argument is the indentation
width of the enclosing context; members and elements are indented two
spaces deeper.  Object members bound to `undefined` are skipped and array
elements that are `undefined` render as null, as JSON.stringify does.
A top-level `undefined` (which JSON.stringify maps to no string at all)
cannot occur here: response bodies are parsed JSON. -/
def jsonStr : Nat → Value → String
  | _, Value.vUndef => "null"
  | _, Value.vNull => "null"
  | _, Value.vStr s => quoteJson s
  | _, Value.vNum n => toString n
  | _, Value.vBool b => cond b "true" "false"
  | ind, Value.vObj fs =>
      match jsonMembers ind fs with
      | [] => "\x7b\x7d"
      | ms => "\x7b\n" ++ String.intercalate ",\n" ms ++ "\n" ++ spaces ind ++ "\x7d"
  | ind, Value.vArr es =>
      match es with
      | [] => "[]"
      | _ => "[\n" ++ String.intercalate ",\n" (jsonElems ind es) ++ "\n" ++ spaces ind ++ "]"

/-- Rendered object members for `jsonStr`, skipping `undefined` values. -/
def jsonMembers : Nat → List (String × Value) → List String
  | _, [] => []
  | ind, (_, Value.vUndef) :: rest => jsonMembers ind rest
  | ind, (k, v) :: rest =>
      (spaces (ind + 2) ++ quoteJson k ++ ": " ++ jsonStr (ind + 2) v) :: jsonMembers ind rest

/-- Rendered array elements for `jsonStr`. -/
def jsonElems : Nat → List Value → List String
  | _, [] => []
  | ind, v :: rest => (spaces (ind + 2) ++ jsonStr (ind + 2) v) :: jsonElems ind rest
end

/-- HTTP methods used by the axios client. -/
inductive Method where
  | get : Method
  | post : Method
  | patch : Method
  | put : Method
  | delete : Method
deriving DecidableEq

/-- The fully resolved outbound HTTP request a handler passes to the axios
client: method, interpolated path, query-parameter object and, for the
verbs that send one, the body object.  This is the request before JSON
serialization, so body fields bound to `undefined` are still visible. -/
structure OutboundCall where
  method : Method
  path : String
  query : List (String × Value)
  body : Option (List (String × Value))

/-- The `if (args.k) params.k = args.k` idiom of the list handlers:
append the binding only when the supplied value is truthy. -/
def addParam (args : Args) (k : String) (ps : List (String × Value)) : List (String × Value) :=
  if truthy (getProp args k) then ps ++ [(k, getProp args k)] else ps

/-- The query object built by every list handler: search first, then page,
each included only when truthy. -/
def listParams (args : Args) : List (String × Value) :=
  addParam args "page" (addParam args "search" [])

/-- Mapper for list_servers: GET /servers with optional search and page. -/
def listServers (args : Args) : OutboundCall :=
  ⟨Method.get, "/servers", listParams args, none⟩

/-- Mapper for get_server: GET /servers/(serverId) with the id interpolated
by a template literal. -/
def getServer (args : Args) : OutboundCall :=
  ⟨Method.get, "/servers/" ++ jsString (getProp args "serverId"), [], none⟩

/-- Mapper for get_server_stats. -/
def getServerStats (args : Args) : OutboundCall :=
  ⟨Method.get, "/servers/" ++ jsString (getProp args "serverId") ++ "/stats", [], none⟩

/-- Mapper for list_webapps. -/
def listWebapps (args : Args) : OutboundCall :=
  ⟨Method.get, "/servers/" ++ jsString (getProp args "serverId") ++ "/webapps",
    listParams args, none⟩

/-- Mapper for get_webapp. -/
def getWebapp (args : Args) : OutboundCall :=
  ⟨Method.get,
    "/servers/" ++ jsString (getProp args "serverId") ++ "/webapps/" ++
      jsString (getProp args "webappId"), [], none⟩

/-- Mapper for create_webapp: POST with the six body fields copied from the
arguments object literally (a missing argument leaves the field bound to
`undefined`, as in the source object literal). -/
def createWebapp (args : Args) : OutboundCall :=
  ⟨Method.post, "/servers/" ++ jsString (getProp args "serverId") ++ "/webapps/custom", [],
    some [("name", getProp args "name"), ("domainName", getProp args "domainName"),
          ("user", getProp args "user"), ("phpVersion", getProp args "phpVersion"),
          ("stack", getProp args "stack"), ("stackMode", getProp args "stackMode")]⟩

/-- Mapper for list_databases. -/
def listDatabases (args : Args) : OutboundCall :=
  ⟨Method.get, "/servers/" ++ jsString (getProp args "serverId") ++ "/databases",
    listParams args, none⟩

/-- Mapper for create_database: the body starts as name only and collation
is added only when a truthy collation argument was supplied - the handler
applies no default value itself. -/
def createDatabase (args : Args) : OutboundCall :=
  ⟨Method.post, "/servers/" ++ jsString (getProp args "serverId") ++ "/databases", [],
    some ([("name", getProp args "name")] ++
      (if truthy (getProp args "collation") then [("collation", getProp args "collation")]
       else []))⟩

/-- Mapper for list_database_users. -/
def listDatabaseUsers (args : Args) : OutboundCall :=
  ⟨Method.get, "/servers/" ++ jsString (getProp args "serverId") ++ "/databaseusers",
    listParams args, none⟩

/-- Mapper for create_database_user. -/
def createDatabaseUser (args : Args) : OutboundCall :=
  ⟨Method.post, "/servers/" ++ jsString (getProp args "serverId") ++ "/databaseusers", [],
    some [("username", getProp args "username"), ("password", getProp args "password")]⟩

/-- Mapper for list_services. -/
def listServices (args : Args) : OutboundCall :=
  ⟨Method.get, "/servers/" ++ jsString (getProp args "serverId") ++ "/services", [], none⟩

/-- Mapper for control_service: PATCH with the action and the service name
renamed to realName. -/
def controlService (args : Args) : OutboundCall :=
  ⟨Method.patch, "/servers/" ++ jsString (getProp args "serverId") ++ "/services", [],
    some [("action", getProp args "action"), ("realName", getProp args "service")]⟩

/-- Mapper for deploy_git: PUT on the git script endpoint. -/
def deployGit (args : Args) : OutboundCall :=
  ⟨Method.put,
    "/servers/" ++ jsString (getProp args "serverId") ++ "/webapps/" ++
      jsString (getProp args "webappId") ++ "/git/" ++
      jsString (getProp args "gitId") ++ "/script", [], none⟩

/-- The dispatch switch of the CallTool request handler: the thirteen case
arms in source order, and `none` for the default arm (unknown tool). -/
def toolCall (name : String) (args : Args) : Option OutboundCall :=
  match name with
  | "list_servers" => some (listServers args)
  | "get_server" => some (getServer args)
  | "get_server_stats" => some (getServerStats args)
  | "list_webapps" => some (listWebapps args)
  | "get_webapp" => some (getWebapp args)
  | "create_webapp" => some (createWebapp args)
  | "list_databases" => some (listDatabases args)
  | "create_database" => some (createDatabase args)
  | "list_database_users" => some (listDatabaseUsers args)
  | "create_database_user" => some (createDatabaseUser args)
  | "list_services" => some (listServices args)
  | "control_service" => some (controlService args)
  | "deploy_git" => some (deployGit args)
  | _ => none

/-- Declared schema of one input field: its primitive type name and, when
present, its enum constraint.  Field descriptions are introspection data
with no behavioral role and are not modelled. -/
structure PropSchema where
  ptype : String
  enumVals : List String

/-- The JSON-Schema-like object type declared for a tool: named properties
and the list of required field names. -/
structure InputSchema where
  properties : List (String × PropSchema)
  required : List String

/-- One entry of the ListTools response: name and input schema. -/
structure ToolDescriptor where
  name : String
  inputSchema : InputSchema

/-- Descriptor of list_servers. -/
def toolListServers : ToolDescriptor :=
  ⟨"list_servers", ⟨[("search", ⟨"string", []⟩), ("page", ⟨"number", []⟩)], []⟩⟩

/-- Descriptor of get_server. -/
def toolGetServer : ToolDescriptor :=
  ⟨"get_server", ⟨[("serverId", ⟨"number", []⟩)], ["serverId"]⟩⟩

/-- Descriptor of get_server_stats. -/
def toolGetServerStats : ToolDescriptor :=
  ⟨"get_server_stats", ⟨[("serverId", ⟨"number", []⟩)], ["serverId"]⟩⟩

/-- Descriptor of list_webapps. -/
def toolListWebapps : ToolDescriptor :=
  ⟨"list_webapps",
    ⟨[("serverId", ⟨"number", []⟩), ("search", ⟨"string", []⟩), ("page", ⟨"number", []⟩)],
      ["serverId"]⟩⟩

/-- Descriptor of get_webapp. -/
def toolGetWebapp : ToolDescriptor :=
  ⟨"get_webapp",
    ⟨[("serverId", ⟨"number", []⟩), ("webappId", ⟨"number", []⟩)], ["serverId", "webappId"]⟩⟩

/-- Descriptor of create_webapp, with the two declared enum constraints. -/
def toolCreateWebapp : ToolDescriptor :=
  ⟨"create_webapp",
    ⟨[("serverId", ⟨"number", []⟩), ("name", ⟨"string", []⟩),
      ("domainName", ⟨"string", []⟩), ("user", ⟨"string", []⟩),
      ("phpVersion", ⟨"string", []⟩), ("stack", ⟨"string", ["hybrid", "nativenginx"]⟩),
      ("stackMode", ⟨"string", ["production", "development"]⟩)],
      ["serverId", "name", "domainName", "user", "phpVersion", "stack", "stackMode"]⟩⟩

/-- Descriptor of list_databases. -/
def toolListDatabases : ToolDescriptor :=
  ⟨"list_databases",
    ⟨[("serverId", ⟨"number", []⟩), ("search", ⟨"string", []⟩), ("page", ⟨"number", []⟩)],
      ["serverId"]⟩⟩

/-- Descriptor of create_database.  The collation property is optional; its
source description text mentions a default of utf8mb4_unicode_ci, applied
by nobody in this file. -/
def toolCreateDatabase : ToolDescriptor :=
  ⟨"create_database",
    ⟨[("serverId", ⟨"number", []⟩), ("name", ⟨"string", []⟩), ("collation", ⟨"string", []⟩)],
      ["serverId", "name"]⟩⟩

/-- Descriptor of list_database_users. -/
def toolListDatabaseUsers : ToolDescriptor :=
  ⟨"list_database_users",
    ⟨[("serverId", ⟨"number", []⟩), ("search", ⟨"string", []⟩), ("page", ⟨"number", []⟩)],
      ["serverId"]⟩⟩

/-- Descriptor of create_database_user. -/
def toolCreateDatabaseUser : ToolDescriptor :=
  ⟨"create_database_user",
    ⟨[("serverId", ⟨"number", []⟩), ("username", ⟨"string", []⟩), ("password", ⟨"string", []⟩)],
      ["serverId", "username", "password"]⟩⟩

/-- Descriptor of list_services. -/
def toolListServices : ToolDescriptor :=
  ⟨"list_services", ⟨[("serverId", ⟨"number", []⟩)], ["serverId"]⟩⟩

/-- Descriptor of control_service, with its two enum constraints. -/
def toolControlService : ToolDescriptor :=
  ⟨"control_service",
    ⟨[("serverId", ⟨"number", []⟩),
      ("action", ⟨"string", ["start", "stop", "restart", "reload"]⟩),
      ("service", ⟨"string",
        ["nginx-rc", "apache2-rc", "mysql", "redis-server", "memcached", "beanstalkd",
         "supervisord"]⟩)],
      ["serverId", "action", "service"]⟩⟩

/-- Descriptor of deploy_git. -/
def toolDeployGit : ToolDescriptor :=
  ⟨"deploy_git",
    ⟨[("serverId", ⟨"number", []⟩), ("webappId", ⟨"number", []⟩), ("gitId", ⟨"number", []⟩)],
      ["serverId", "webappId", "gitId"]⟩⟩

/-- The ListTools response: the thirteen descriptors in source order. -/
def listedTools : List ToolDescriptor :=
  [toolListServers, toolGetServer, toolGetServerStats, toolListWebapps, toolGetWebapp,
   toolCreateWebapp, toolListDatabases, toolCreateDatabase, toolListDatabaseUsers,
   toolCreateDatabaseUser, toolListServices, toolControlService, toolDeployGit]

/-- Absence in the sense of the declared validation contract: the field is
missing or null. -/
def isMissing : Value → Bool
  | Value.vUndef => true
  | Value.vNull => true
  | _ => false

/-- Declared-type check for a supplied value. -/
def typeOk (t : String) : Value → Bool
  | Value.vStr _ => t == "string"
  | Value.vNum _ => t == "number"
  | Value.vBool _ => t == "boolean"
  | _ => false

/-- Enum-constraint check: vacuous when the schema declares no enum. -/
def enumOk (es : List String) (v : Value) : Bool :=
  es.isEmpty ||
    (match v with
     | Value.vStr s => es.contains s
     | _ => false)

/-- Modelled from the spec: the argument validator of section 4.2, which is
absent from index-basic.js (the file declares the schemas but never checks
arguments against them).  An argument object satisfies a schema when every
required field is present, non-null, of the declared type, and within the
declared enum. -/
def schemaOk (s : InputSchema) (args : Args) : Bool :=
  s.required.all fun k =>
    !(isMissing (getProp args k)) &&
      (match s.properties.find? (fun p => p.1 == k) with
       | some p => typeOk p.2.ptype (getProp args k) && enumOk p.2.enumVals (getProp args k)
       | none => true)

/-- Outcome of one outbound HTTP request, as seen by the handler through
axios: a 2xx response with a parsed body, a non-2xx response (an axios
error carrying a `response` with status, parsed data and an error message
such as Request failed with status code 422), or a transport failure (an
axios error with no `response`). -/
inductive RemoteOutcome where
  | ok : Value → RemoteOutcome
  | httpError : Nat → Value → String → RemoteOutcome
  | transportFailure : String → RemoteOutcome

/-- The remote API, abstracted as a function from outbound request to
outcome. -/
abbrev Remote := OutboundCall → RemoteOutcome

/-- The two MCP protocol error codes this file ever constructs. -/
inductive ErrCode where
  | methodNotFound : ErrCode
  | internalError : ErrCode
deriving DecidableEq

/-- One content block of a success envelope. -/
inductive ContentBlock where
  | text : String → ContentBlock

/-- The success envelope: a content array. -/
structure Envelope where
  content : List ContentBlock

/-- Result of the CallTool request handler: a success envelope, an McpError
with one of the two codes, or a non-McpError rethrown unchanged by the
catch block (a transport failure has no `response` field and is rethrown
raw). -/
inductive CallResult where
  | success : Envelope → CallResult
  | failure : ErrCode → String → CallResult
  | thrown : String → CallResult

/-- JavaScript property access on an arbitrary value: only objects have
keys, everything else yields `undefined`. -/
def propAccess (v : Value) (k : String) : Value :=
  match v with
  | Value.vObj fs => getProp fs k
  | _ => Value.vUndef

/-- The message built by the catch block for an axios error that carries a
response: the template RunCloud API Error followed by
`error.response.data.message || error.message`. -/
def upstreamMessage (data : Value) (errMessage : String) : String :=
  "RunCloud API Error: " ++
    (if truthy (propAccess data "message") then jsString (propAccess data "message")
     else errMessage)

/-- Performing one resolved outbound request and translating the outcome,
exactly as the handler body plus the catch block do: a 2xx response is
wrapped in an envelope with one text block holding the pretty-printed body;
an error with a response becomes an InternalError McpError with the
upstream message; an error without a response is rethrown unchanged. -/
def performCall (remote : Remote) (c : OutboundCall) : CallResult :=
  match remote c with
  | RemoteOutcome.ok d => CallResult.success ⟨[ContentBlock.text (jsonStr 0 d)]⟩
  | RemoteOutcome.httpError _ d em => CallResult.failure ErrCode.internalError (upstreamMessage d em)
  | RemoteOutcome.transportFailure em => CallResult.thrown em

/-- The CallTool request handler: dispatch by name, perform the single
outbound request of the matched arm, or fail with MethodNotFound for an
unknown name (that McpError has no `response` field, so the catch block
rethrows it unchanged).  The second component is the trace of outbound
HTTP requests issued by the invocation. -/
def handleCallTool (remote : Remote) (name : String) (args : Args) :
    CallResult × List OutboundCall :=
  match toolCall name args with
  | some c => (performCall remote c, [c])
  | none => (CallResult.failure ErrCode.methodNotFound ("Unknown tool: " ++ name), [])

/-- The three environment variables read at module load. -/
structure EnvVars where
  runcloudApiKey : Option String
  runcloudApiSecret : Option String
  runcloudBaseUrl : Option String

/-- The axios instance built at module load: base URL with its fallback,
the basic-auth pair taken from the environment verbatim (possibly absent),
and the two fixed headers. -/
structure ApiClient where
  baseURL : String
  authUser : Option String
  authPass : Option String
  headers : List (String × String)

/-- The axios.create call at module load, mirrored field by field. -/
def mkApi (env : EnvVars) : ApiClient :=
  ⟨env.runcloudBaseUrl.getD "https://manage.runcloud.io/api/v2",
   env.runcloudApiKey, env.runcloudApiSecret,
   [("Content-Type", "application/json"), ("Accept", "application/json")]⟩

/-- Observable outcome of the startup sequence: either the server is
running with a constructed client, or the process exited with a code
before serving. -/
inductive StartupOutcome where
  | running : ApiClient → StartupOutcome
  | exitedWith : Nat → StartupOutcome

/-- The startup sequence of index-basic.js: read the environment, build
the client, construct the server and run.  The file contains no credential
check and no exit path, so the outcome is unconditionally running. -/
def startup (env : EnvVars) : StartupOutcome :=
  StartupOutcome.running (mkApi env)

/-- A remote that answers every request with a 2xx and an empty object
body; used to instantiate universally quantified theorems. -/
def remoteOkEmpty : Remote := fun _ => RemoteOutcome.ok (Value.vObj [])

/-- A remote that answers every request with HTTP 422 and the body of
scenario F. -/
def remote422 : Remote := fun _ =>
  RemoteOutcome.httpError 422 (Value.vObj [("message", Value.vStr "Name already taken")])
    "Request failed with status code 422"

/-- A remote that answers every request with a 2xx and the server object of
scenario A. -/
def remoteServerProd : Remote := fun _ =>
  RemoteOutcome.ok (Value.vObj [("id", Value.vNum 123), ("name", Value.vStr "prod")])

/-- Number of nonempty path segments: the path split at every slash, empty
pieces discarded. -/
def segsAux : List Char → List Char → List (List Char)
  | cur, [] => [cur]
  | cur, c :: rest => if c = '/' then cur :: segsAux [] rest else segsAux (cur ++ [c]) rest

/-- The nonempty segments of a path string. -/
def pathSegments (s : String) : List String :=
  ((segsAux [] s.data).filter (fun seg => !seg.isEmpty)).map (fun cs => String.mk cs)

/-- The number of path segments of a path string. -/
def segCount (s : String) : Nat := (pathSegments s).length

/-- The field names present in the body of an outbound request. -/
def bodyKeys (c : OutboundCall) : List String := (c.body.getD []).map Prod.fst

/-- Performing an outbound request never yields a MethodNotFound failure:
the catch block maps an error with a response to InternalError and rethrows
everything else. -/
theorem performCall_ne_methodNotFound (remote : Remote) (c : OutboundCall) (msg : String) :
    performCall remote c ≠ CallResult.failure ErrCode.methodNotFound msg := by
  intro h
  cases hr : remote c <;> simp [performCall, hr] at h

/-- Splitting step: a leading slash closes the current segment. -/
theorem segsAux_slash (cur : List Char) (cs : List Char) :
    segsAux cur ('/' :: cs) = cur :: segsAux [] cs := by
  simp [segsAux]

/-- Splitting step: any other character extends the current segment. -/
theorem segsAux_step (cur : List Char) (c : Char) (cs : List Char) (h : ¬ c = '/') :
    segsAux cur (c :: cs) = segsAux (cur ++ [c]) cs := by
  simp [segsAux, h]

/-- A slash-free suffix contributes exactly one further piece. -/
theorem segsAux_no_slash (cur : List Char) (cs : List Char) (h : '/' ∉ cs) :
    segsAux cur cs = [cur ++ cs] := by
  induction cs generalizing cur with
  | nil => simp [segsAux]
  | cons c rest ih =>
    have hc : ¬ c = '/' := by
      intro hEq
      subst hEq
      exact h (List.mem_cons_self _ _)
    rw [segsAux_step cur c rest hc, ih (cur ++ [c]) (fun hm => h (List.mem_cons_of_mem _ hm))]
    simp

/-- A path of the shape servers slash id has exactly two segments whenever
the interpolated id text is nonempty and slash-free. -/
theorem servers_path_segCount (s : String) (h1 : s.data ≠ []) (h2 : '/' ∉ s.data) :
    segCount ("/servers/" ++ s) = 2 := by
  have hd : ("/servers/" ++ s).data
      = '/' :: 's' :: 'e' :: 'r' :: 'v' :: 'e' :: 'r' :: 's' :: '/' :: s.data := by
    cases s with
    | mk data => rfl
  unfold segCount pathSegments
  rw [hd]
  cases hsd : s.data with
  | nil => exact absurd hsd h1
  | cons c cs =>
    rw [hsd] at h2
    rw [segsAux_slash, segsAux_step _ _ _ (by decide), segsAux_step _ _ _ (by decide),
      segsAux_step _ _ _ (by decide), segsAux_step _ _ _ (by decide),
      segsAux_step _ _ _ (by decide), segsAux_step _ _ _ (by decide),
      segsAux_step _ _ _ (by decide), segsAux_slash, segsAux_no_slash [] (c :: cs) h2]
    rfl

/-- Claim C1, counterexample: invoking get_server with an empty argument
object (the required serverId omitted) does issue an outbound HTTP call -
a GET on the path servers slash undefined - and the invocation succeeds
rather than failing with InvalidArguments.  No validation precedes the
network side effect. -/
theorem get_server_missing_required_field_calls_network :
    (handleCallTool remoteOkEmpty "get_server" []).2 =
      [⟨Method.get, "/servers/undefined", [], none⟩] ∧
    (handleCallTool remoteOkEmpty "get_server" []).1 =
      CallResult.success ⟨[ContentBlock.text "\x7b\x7d"]⟩ :=
  ⟨rfl, rfl⟩

/-- Claim C1, amended: index-basic.js performs no argument validation.
For every tool enumerated by the ListTools handler and every argument
object whatsoever - required fields present or not - dispatch issues
exactly one outbound HTTP call; no InvalidArguments failure exists in the
file. -/
theorem no_validation_registered_tools_always_call (d : ToolDescriptor)
    (hd : d ∈ listedTools) (remote : Remote) (args : Args) :
    ((handleCallTool remote d.name args).2).length = 1 := by
  simp [listedTools] at hd
  rcases hd with h | h | h | h | h | h | h | h | h | h | h | h | h <;> subst h <;> rfl

/-- Claim C1, witness for the amended theorem: get_server is a listed tool
and its invocation with an empty argument object issues one call. -/
theorem no_validation_registered_tools_always_call_witness :
    ((handleCallTool remoteOkEmpty toolGetServer.name []).2).length = 1 :=
  no_validation_registered_tools_always_call toolGetServer (by simp [listedTools])
    remoteOkEmpty []

/-- Claim C2, counterexample: create_database with serverId five and name
app_db but no collation posts a body whose only field is name - the
documented default collation is not applied by the mapper. -/
theorem create_database_collation_counterexample :
    (createDatabase [("serverId", Value.vNum 5), ("name", Value.vStr "app_db")]).method
      = Method.post ∧
    (createDatabase [("serverId", Value.vNum 5), ("name", Value.vStr "app_db")]).path
      = "/servers/5/databases" ∧
    bodyKeys (createDatabase [("serverId", Value.vNum 5), ("name", Value.vStr "app_db")])
      = ["name"] ∧
    "collation" ∉
      bodyKeys (createDatabase [("serverId", Value.vNum 5), ("name", Value.vStr "app_db")]) := by
  refine ⟨rfl, rfl, rfl, ?_⟩
  decide

/-- Claim C2, amended: calling create_database while omitting collation
produces a POST on servers slash id slash databases whose body contains
the supplied name and nothing else; no collation field of any value is
sent, the default being left to the remote API. -/
theorem create_database_omitted_collation_body (remote : Remote) (sid nm : Value) :
    (handleCallTool remote "create_database" [("serverId", sid), ("name", nm)]).2 =
      [⟨Method.post, "/servers/" ++ jsString sid ++ "/databases", [], some [("name", nm)]⟩] :=
  rfl

/-- Claim C3, counterexample: supplying the string 123/stats as the
serverId of get_server produces the path servers slash 123 slash stats,
which has three segments where the plain numeric value 123 produces two -
interpolation is verbatim and a path separator in the value does introduce
an additional segment. -/
theorem path_segment_count_counterexample :
    (getServer [("serverId", Value.vStr "123/stats")]).path = "/servers/123/stats" ∧
    segCount ((getServer [("serverId", Value.vStr "123/stats")]).path) = 3 ∧
    segCount ((getServer [("serverId", Value.vNum 123)]).path) = 2 :=
  ⟨rfl, rfl, rfl⟩

/-- Claim C3, amended: identifier values are interpolated verbatim into the
path with no sanitization.  Whenever the supplied value renders to
nonempty text free of path separators - as every plain numeric value does,
though the mapper enforces nothing - the resulting path has the same two
segments as the plain numeric case; a value containing a path separator
can change the count, as the counterexample for this claim shows. -/
theorem slash_free_id_segment_count (v : Value) (h1 : (jsString v).data ≠ [])
    (h2 : '/' ∉ (jsString v).data) :
    segCount ((getServer [("serverId", v)]).path) = 2 ∧
    segCount ((getServer [("serverId", Value.vNum 123)]).path) = 2 := by
  constructor
  · exact servers_path_segCount (jsString v) h1 h2
  · rfl

/-- Claim C3, witness: the numeric value seven renders slash-free and its
path has two segments, as does the one for 123. -/
theorem slash_free_id_segment_count_witness :
    segCount ((getServer [("serverId", Value.vNum 7)]).path) = 2 ∧
    segCount ((getServer [("serverId", Value.vNum 123)]).path) = 2 :=
  slash_free_id_segment_count (Value.vNum 7) (by decide) (by decide)

/-- Claim C4, counterexample: with both credentials absent from the
environment, startup still constructs the HTTP client - with absent
basic-auth fields - and reaches the running state instead of exiting. -/
theorem absent_credentials_still_running :
    startup ⟨none, none, none⟩ =
      StartupOutcome.running ⟨"https://manage.runcloud.io/api/v2", none, none,
        [("Content-Type", "application/json"), ("Accept", "application/json")]⟩ :=
  rfl

/-- Claim C4, amended: index-basic.js performs no credential check.  For
every environment, startup constructs the client from whatever the
environment holds and proceeds to serve; no diagnostic-and-exit path
exists in the file.  The larger variant of the server shipped in the
repository documentation does validate and exit with code one. -/
theorem startup_never_exits (env : EnvVars) :
    startup env = StartupOutcome.running (mkApi env) ∧
    ∀ n : Nat, startup env ≠ StartupOutcome.exitedWith n := by
  refine ⟨rfl, ?_⟩
  intro n h
  exact StartupOutcome.noConfusion h

/-- Claim C4, witness: with every environment variable absent the server
still runs and does not exit with code one. -/
theorem startup_never_exits_witness :
    startup ⟨none, none, none⟩ = StartupOutcome.running (mkApi ⟨none, none, none⟩) ∧
    startup ⟨none, none, none⟩ ≠ StartupOutcome.exitedWith 1 :=
  ⟨(startup_never_exits ⟨none, none, none⟩).1, (startup_never_exits ⟨none, none, none⟩).2 1⟩

/-- Claim C5: an unknown tool name fails with MethodNotFound carrying the
unknown-tool message; a remote non-2xx failure on a registered tool fails
with InternalError carrying the upstream message; and among all McpError
failures the code MethodNotFound occurs exactly for unknown names, so the
two failure families are distinguishable only through the message
string. -/
theorem dispatch_error_codes (remote : Remote) (name : String) (args : Args) :
    (toolCall name args = none →
      (handleCallTool remote name args).1 =
        CallResult.failure ErrCode.methodNotFound ("Unknown tool: " ++ name)) ∧
    (∀ c, toolCall name args = some c →
      ∀ s d em, remote c = RemoteOutcome.httpError s d em →
        (handleCallTool remote name args).1 =
          CallResult.failure ErrCode.internalError (upstreamMessage d em)) ∧
    (∀ code msg, (handleCallTool remote name args).1 = CallResult.failure code msg →
      (code = ErrCode.methodNotFound ↔ toolCall name args = none)) := by
  refine ⟨?_, ?_, ?_⟩
  · intro h
    simp [handleCallTool, h]
  · intro c hc s d em hr
    simp [handleCallTool, hc, performCall, hr]
  · intro code msg h
    cases hc : toolCall name args with
    | none =>
      simp [handleCallTool, hc] at h
      cases code with
      | methodNotFound => simp [hc]
      | internalError => simp at h
    | some c =>
      simp [handleCallTool, hc] at h
      cases code with
      | methodNotFound => exact absurd h (performCall_ne_methodNotFound remote c msg)
      | internalError => simp [hc]

/-- Claim C5, witness (scenario E): calling the name nonexistent_tool fails
with MethodNotFound and the unknown-tool message. -/
theorem dispatch_error_codes_witness :
    (handleCallTool remoteOkEmpty "nonexistent_tool" []).1 =
      CallResult.failure ErrCode.methodNotFound "Unknown tool: nonexistent_tool" :=
  (dispatch_error_codes remoteOkEmpty "nonexistent_tool" []).1 rfl

/-- Claim C6: when the remote API answers a registered-tool call with a
non-2xx status whose JSON body carries a nonempty message field, the
invocation fails with exactly one error whose message is the upstream
message prefixed by the RunCloud API Error marker. -/
theorem upstream_message_forwarded (remote : Remote) (name : String) (args : Args)
    (c : OutboundCall) (s : Nat) (d : Value) (em m : String)
    (hc : toolCall name args = some c)
    (hr : remote c = RemoteOutcome.httpError s d em)
    (hm : propAccess d "message" = Value.vStr m) (hne : m ≠ "") :
    (handleCallTool remote name args).1 =
      CallResult.failure ErrCode.internalError ("RunCloud API Error: " ++ m) := by
  have hb : (m == "") = false := beq_eq_false_iff_ne.mpr hne
  simp [handleCallTool, hc, performCall, hr, upstreamMessage, hm, truthy, hb, jsString]

/-- Claim C6, witness (scenario F): a 422 with the body message Name
already taken surfaces as an InternalError whose message carries that text
after the upstream prefix. -/
theorem upstream_message_forwarded_witness :
    (handleCallTool remote422 "create_database"
        [("serverId", Value.vNum 5), ("name", Value.vStr "app_db")]).1 =
      CallResult.failure ErrCode.internalError "RunCloud API Error: Name already taken" :=
  upstream_message_forwarded remote422 "create_database"
    [("serverId", Value.vNum 5), ("name", Value.vStr "app_db")]
    (createDatabase [("serverId", Value.vNum 5), ("name", Value.vStr "app_db")])
    422 (Value.vObj [("message", Value.vStr "Name already taken")])
    "Request failed with status code 422" "Name already taken" rfl rfl rfl (by decide)

/-- Claim C7: get_server with serverId 123 issues exactly one outbound
call, a GET on servers slash 123 with empty query and no body, and a 2xx
remote response is returned as a success envelope holding exactly one text
block whose text is the whole response body pretty-printed - no reshaping
and no field filtering. -/
theorem get_server_roundtrip (remote : Remote) (d : Value)
    (h : remote ⟨Method.get, "/servers/123", [], none⟩ = RemoteOutcome.ok d) :
    handleCallTool remote "get_server" [("serverId", Value.vNum 123)] =
      (CallResult.success ⟨[ContentBlock.text (jsonStr 0 d)]⟩,
       [⟨Method.get, "/servers/123", [], none⟩]) := by
  have hc : toolCall "get_server" [("serverId", Value.vNum 123)] =
      some ⟨Method.get, "/servers/123", [], none⟩ := rfl
  simp [handleCallTool, hc, performCall, h]

/-- Claim C7, witness (scenario A): a 2xx body with id 123 and name prod
comes back pretty-printed over two-space indentation in one text block. -/
theorem get_server_roundtrip_witness :
    handleCallTool remoteServerProd "get_server" [("serverId", Value.vNum 123)] =
      (CallResult.success
        ⟨[ContentBlock.text "\x7b\n  \"id\": 123,\n  \"name\": \"prod\"\n\x7d"]⟩,
       [⟨Method.get, "/servers/123", [], none⟩]) :=
  get_server_roundtrip remoteServerProd
    (Value.vObj [("id", Value.vNum 123), ("name", Value.vStr "prod")]) rfl

/-- Claim C8: omitting an optional field with no handler-applied default
leaves that field out of the outbound query and body entirely - the four
list tools called without search and page carry an empty query object
(scenario C for list_servers), and create_database without collation sends
a body whose only key is name. -/
theorem omitted_optionals_absent (remote : Remote) (sid nm : Value) :
    (handleCallTool remote "list_servers" []).2 = [⟨Method.get, "/servers", [], none⟩] ∧
    (handleCallTool remote "list_webapps" [("serverId", sid)]).2 =
      [⟨Method.get, "/servers/" ++ jsString sid ++ "/webapps", [], none⟩] ∧
    (handleCallTool remote "list_databases" [("serverId", sid)]).2 =
      [⟨Method.get, "/servers/" ++ jsString sid ++ "/databases", [], none⟩] ∧
    (handleCallTool remote "list_database_users" [("serverId", sid)]).2 =
      [⟨Method.get, "/servers/" ++ jsString sid ++ "/databaseusers", [], none⟩] ∧
    bodyKeys (createDatabase [("serverId", sid), ("name", nm)]) = ["name"] :=
  ⟨rfl, rfl, rfl, rfl, rfl⟩

/-- Claim C9: every tool name enumerated by the ListTools handler has a
dispatch arm, so calling it with arguments satisfying its declared schema
never fails with MethodNotFound. -/
theorem listed_tools_dispatchable (d : ToolDescriptor) (hd : d ∈ listedTools)
    (args : Args) (remote : Remote) (msg : String)
    (hok : schemaOk d.inputSchema args = true) :
    (handleCallTool remote d.name args).1 ≠ CallResult.failure ErrCode.methodNotFound msg := by
  simp [listedTools] at hd
  rcases hd with h | h | h | h | h | h | h | h | h | h | h | h | h <;> subst h <;>
    exact performCall_ne_methodNotFound remote _ msg

/-- Claim C9, witness: get_server is listed, the argument object holding
serverId one satisfies its schema, and the invocation is not an
unknown-tool failure. -/
theorem listed_tools_dispatchable_witness :
    (handleCallTool remoteOkEmpty toolGetServer.name [("serverId", Value.vNum 1)]).1 ≠
      CallResult.failure ErrCode.methodNotFound "Unknown tool: get_server" :=
  listed_tools_dispatchable toolGetServer (by simp [listedTools])
    [("serverId", Value.vNum 1)] remoteOkEmpty "Unknown tool: get_server" (by decide)

/-- Claim C10: a supplied optional value that is falsy - page zero or the
empty search string on the four list tools, the empty collation string on
create_database - is dropped by the truthiness guards, so the outbound
call is identical to the one for an absent field. -/
theorem falsy_optionals_dropped (remote : Remote) (sid nm : Value) :
    (handleCallTool remote "list_servers"
        [("search", Value.vStr ""), ("page", Value.vNum 0)]).2 =
      (handleCallTool remote "list_servers" []).2 ∧
    (handleCallTool remote "list_webapps"
        [("serverId", sid), ("search", Value.vStr ""), ("page", Value.vNum 0)]).2 =
      (handleCallTool remote "list_webapps" [("serverId", sid)]).2 ∧
    (handleCallTool remote "list_databases"
        [("serverId", sid), ("search", Value.vStr ""), ("page", Value.vNum 0)]).2 =
      (handleCallTool remote "list_databases" [("serverId", sid)]).2 ∧
    (handleCallTool remote "list_database_users"
        [("serverId", sid), ("search", Value.vStr ""), ("page", Value.vNum 0)]).2 =
      (handleCallTool remote "list_database_users" [("serverId", sid)]).2 ∧
    (handleCallTool remote "create_database"
        [("serverId", sid), ("name", nm), ("collation", Value.vStr "")]).2 =
      (handleCallTool remote "create_database" [("serverId", sid), ("name", nm)]).2 :=
  ⟨rfl, rfl, rfl, rfl, rfl⟩

end RunCloud
